/-
Verification of the two training scripts of the repository:
  * transformer/Demo01/predict_odd_numbers.py            (Script 1)
  * transformer/ViT/VisionTransformer_MNIST_query_key.py (Script 2)

Tensors are modelled as a shape together with a row-major flat valuation,
which is exactly the contiguous layout that the reshape / permute / flatten
calls of the scripts act on.  Framework layers (linear, attention, dropout)
are opaque parameters constrained only by their shape contracts, since the
scripts use them as black boxes.
-/

import Mathlib

/-- Row-major linear offset of a multi-index inside a shape. -/
def offset : List Nat → List Nat → Nat
  | _ :: ss, i :: is => i * ss.prod + offset ss is
  | _, _ => 0

/-- Multi-index of a row-major linear position inside a shape. -/
def delin : List Nat → Nat → List Nat
  | [], _ => []
  | _ :: ss, k => (k / ss.prod) :: delin ss (k % ss.prod)

/-- A tensor: a shape and a row-major flat valuation of positions. -/
structure Tensor (α : Type) where
  shape : List Nat
  val : Nat → α

/-- Element of a tensor at a multi-index. -/
def Tensor.get {α : Type} (t : Tensor α) (idx : List Nat) : α :=
  t.val (offset t.shape idx)

/-- torch reshape: same flat data, new shape. -/
def Tensor.reshape {α : Type} (t : Tensor α) (s : List Nat) : Tensor α :=
  ⟨s, t.val⟩

/-- torch flatten(i, j): merge the contiguous dimensions i..j, data untouched. -/
def Tensor.flatten {α : Type} (t : Tensor α) (i j : Nat) : Tensor α :=
  ⟨t.shape.take i ++ ((t.shape.drop i).take (j + 1 - i)).prod :: t.shape.drop (j + 1),
   t.val⟩

/-- torch permute(dims): output dimension d ranges over input dimension dims[d],
and the element at a permuted multi-index is the input element whose index is
the inverse rearrangement. -/
def Tensor.permute {α : Type} (t : Tensor α) (dims : List Nat) : Tensor α :=
  let ns := dims.map (fun d => t.shape.getD d 0)
  ⟨ns, fun k =>
    let m := delin ns k
    t.val (offset t.shape ((List.range t.shape.length).map
      (fun a => m.getD (dims.indexOf a) 0)))⟩

/-- img_to_patch of Script 2 (lines 86-104): reshape [B, C, H, W] into
[B, C, H/p, p, W/p, p], permute to [B, H', W', C, p, p], flatten the patch
grid, and when flatten_channels is set also flatten each patch to a vector.
A tensor that is not rank 4 makes the unpacking B, C, H, W = x.shape fail. -/
def img_to_patch {α : Type} (x : Tensor α) (patch_size : Nat)
    (flatten_channels : Bool) : Option (Tensor α) :=
  match x.shape with
  | [B, C, H, W] =>
    let x1 := x.reshape [B, C, H / patch_size, patch_size, W / patch_size, patch_size]
    let x2 := x1.permute [0, 2, 4, 1, 3, 5]
    let x3 := x2.flatten 1 2
    some (if flatten_channels then x3.flatten 2 4 else x3)
  | _ => none

/-- numpy arange over naturals with a positive step. -/
def arange (start stop step : Nat) : List Nat :=
  List.range' start ((stop - start + step - 1) / step) step

/-- Vocabulary size of Script 1 (line 63). -/
def voc_size : Nat := 10000

/-- The input array of Script 1, arange(2, voc_size, 2) (line 64). -/
def demoInp : List Nat := arange 2 voc_size 2

/-- The target array of Script 1, arange(3, voc_size, 2) (line 65). -/
def demoTgt : List Nat := arange 3 voc_size 2

/-- The source sequence built by test() (line 48): [(s + j) * 2 for j in range(max_len)]. -/
def testSrc (s max_len : Nat) : List Nat :=
  (List.range max_len).map (fun j => (s + j) * 2)

/-- The target sequence built by test() (line 50): [0] + [(s + j) * 2 + 1 for j in range(max_len)]. -/
def testTgt (s max_len : Nat) : List Nat :=
  0 :: (List.range max_len).map (fun j => (s + j) * 2 + 1)

/-- First-maximum scan underlying torch argmax: index and value of the best
element seen so far, updated only on a strict increase. -/
def argmaxGo : List ℚ → Nat → Nat → ℚ → Nat
  | [], _, bi, _ => bi
  | x :: xs, i, bi, bv => if bv < x then argmaxGo xs (i + 1) i x else argmaxGo xs (i + 1) bi bv

/-- torch argmax over a vector: index of the first maximal entry, 0 on []. -/
def argmaxIdx : List ℚ → Nat
  | [] => 0
  | x :: xs => argmaxGo xs 1 0 x

/-- One decoding step of test() (lines 53-55): run the model on the fixed
source and the current prediction, take the output at the last target
position, and return the argmax over the vocabulary dimension.  The model
output is a list of per-position vocabulary score vectors (batch of 1
squeezed away). -/
def testStep (model : List Nat → List Nat → List (List ℚ)) (src pred : List Nat) : Nat :=
  argmaxIdx ((model src pred).getLastD [])

/-- The prediction list of test() after k iterations of the decoding loop
(lines 51-56): pred starts as [0] and each iteration appends one token. -/
def testPred (model : List Nat → List Nat → List (List ℚ)) (src : List Nat) :
    Nat → List Nat
  | 0 => [0]
  | k + 1 => testPred model src k ++ [testStep model src (testPred model src k)]

/-- Average returned by train() of Script 1 (lines 11-25): the accumulated
per-batch losses divided by len(loader).  On an empty loader the division
is 0 / 0 on Python ints, which raises ZeroDivisionError, modelled as none. -/
def trainAvg (batchLosses : List ℚ) : Option ℚ :=
  if batchLosses.length = 0 then none
  else some (batchLosses.sum / batchLosses.length)

/-- Average returned by validation() of Script 1 (lines 28-39), identical
in structure to the one of train(). -/
def validationAvg (batchLosses : List ℚ) : Option ℚ :=
  if batchLosses.length = 0 then none
  else some (batchLosses.sum / batchLosses.length)

/-- Value of the module-level name i when Script 2 reaches its training loop:
the patch-plotting loop "for i in range(train_examples.shape[0])" (line 114)
runs over range(4) at module scope, leaving i bound to 3. -/
def plotLoopI : Nat := 3

/-- Value of the loop variable i after the validation loop of Script 2
(line 277): enumerate leaves i at numBatches - 1, and on an empty loader the
body never runs, so i keeps its previous module-level value. -/
def script2LoopI (iPrev numBatches : Nat) : Nat :=
  if numBatches = 0 then iPrev else numBatches - 1

/-- avg_vloss of Script 2 (line 284): running_vloss / (i + 1) with i the
leftover loop variable. -/
def script2ValAvg (iPrev : Nat) (batchLosses : List ℚ) : ℚ :=
  batchLosses.sum / (script2LoopI iPrev batchLosses.length + 1)

/-- Floor of a rational, via floor division of numerator by denominator. -/
def ratFloor (q : ℚ) : ℤ :=
  Int.fdiv q.num q.den

/-- Round a rational to the nearest integer, ties to even: the rounding used
by Python '%.5f' formatting, applied to the scaled value. -/
def roundHalfEven (q : ℚ) : ℤ :=
  let f := ratFloor q
  let r := q - (f : ℚ)
  if r < 1 / 2 then f
  else if 1 / 2 < r then f + 1
  else if f % 2 = 0 then f else f + 1

/-- Left-pad a decimal string with zeros to the given width. -/
def padZeros (s : String) (w : Nat) : String :=
  String.mk (List.replicate (w - s.length) '0') ++ s

/-- Fixed-point formatting with 5 decimal places, the effect of the Python
format spec ".5f" on the (nonnegative) loss values of the scripts. -/
def fmt5 (q : ℚ) : String :=
  let n := roundHalfEven (q * 100000)
  let sgn := if n < 0 then "-" else ""
  let m := n.natAbs
  sgn ++ toString (m / 100000) ++ "." ++ padZeros (toString (m % 100000)) 5

/-- Checkpoint filename of Script 1 (line 98): "model/model_{0:.5f}" dot "pt"
formatted with the epoch validation loss. -/
def script1CkptName (loss : ℚ) : String :=
  "model/model_" ++ fmt5 loss ++ ".pt"

/-- Checkpoint filename of Script 2 (line 290), using the 1-based epoch. -/
def script2CkptName (epoch : Nat) : String :=
  "./model_VisionTransformer_MNIST_" ++ toString (epoch + 1) ++ ".pt"

/-- A checkpoint save performed by a training loop: which epoch, at which
validation loss, under which filename. -/
structure SaveEvent where
  epoch : Nat
  loss : ℚ
  fname : String
deriving DecidableEq

/-- The checkpoint-relevant state of a training loop: the best validation
loss seen so far and the saves performed. -/
structure TrainState where
  best : ℚ
  saves : List SaveEvent
deriving DecidableEq

/-- One epoch of checkpoint tracking (Script 1 lines 96-99, Script 2 lines
288-291): save and update best exactly when the epoch validation loss is
strictly below the best seen so far. -/
def trainEpochStep (name : Nat → ℚ → String) (st : TrainState) (epoch : Nat)
    (loss : ℚ) : TrainState :=
  if loss < st.best then ⟨loss, st.saves ++ [⟨epoch, loss, name epoch loss⟩]⟩ else st

/-- Run the checkpoint tracking over a list of per-epoch validation losses. -/
def trainLoopGo (name : Nat → ℚ → String) (st : TrainState) (epoch : Nat) :
    List ℚ → TrainState
  | [] => st
  | l :: ls => trainLoopGo name (trainEpochStep name st epoch l) (epoch + 1) ls

/-- Script 1 training loop (lines 87-99): best loss starts at 40 and the
filename encodes the validation loss. -/
def script1Run (losses : List ℚ) : TrainState :=
  trainLoopGo (fun _ l => script1CkptName l) ⟨40, []⟩ 0 losses

/-- Script 2 training loop (lines 245-291): best loss starts at 1000000 and
the filename encodes the 1-based epoch number. -/
def script2Run (losses : List ℚ) : TrainState :=
  trainLoopGo (fun e _ => script2CkptName e) ⟨1000000, []⟩ 0 losses

/-- One argparse registration of Script 1: flag, whether type=str, whether
required. -/
structure ArgSpec where
  flag : String
  is_str : Bool
  required : Bool
deriving DecidableEq

/-- The two add_argument calls of Script 1 (lines 105-106): both type=str and
optional. -/
def script1ArgSpecs : List ArgSpec :=
  [⟨"--test_model", true, false⟩, ⟨"--train_model", true, false⟩]

/-- The parsed command line of Script 1. -/
structure Script1Args where
  test_model : Option String
  train_model : Option String
deriving DecidableEq

/-- Argparse over the two registered flags of Script 1: consume one
"--flag value" pair at a time, reject any token that is not a registered
flag in flag position, and a trailing flag with no value. -/
def parseArgs : List String → Script1Args → Option Script1Args
  | [], acc => some acc
  | a :: v :: rest, acc =>
    if a = "--test_model" then parseArgs rest ⟨some v, acc.train_model⟩
    else if a = "--train_model" then parseArgs rest ⟨acc.test_model, some v⟩
    else none
  | _ :: _, _ => none

/-- The dispatch of Script 1 (lines 114-120), with main() abstracted as a
function from the optional train_model path to the checkpoint name it
returns.  Result: whether training ran, and the model name that test() will
load (line 122). -/
def script1Dispatch (mainFn : Option String → Option String)
    (args : Script1Args) : Bool × Option String :=
  match args.test_model with
  | some tp => (false, some tp)
  | none => (true, mainFn args.train_model)

/-- Straight-line execution of a list of fallible stages, as in a Python
script with no try/except: the first raised error aborts the script and
propagates unchanged. -/
def runSeq {ε : Type} : List (Except ε Unit) → Except ε Unit
  | [] => Except.ok ()
  | Except.error e :: _ => Except.error e
  | Except.ok _ :: rest => runSeq rest

/-- The fallible framework operations performed by Script 1, abstracted. -/
structure Script1Ops (ε : Type) where
  build_dataset : Except ε Unit
  build_model : Except ε Unit
  epoch_train : Nat → Except ε Unit
  epoch_validation : Nat → Except ε Unit
  save_checkpoint : Nat → Except ε Unit
  load_checkpoint : Except ε Unit
  run_test : Except ε Unit

/-- The straight-line stage sequence of Script 1 (lines 62-123): dataset and
model construction, per-epoch train / validation / checkpointing, then
loading the checkpoint and testing. -/
def script1Stages {ε : Type} (ops : Script1Ops ε) (epochs : Nat) :
    List (Except ε Unit) :=
  [ops.build_dataset, ops.build_model] ++
    ((List.range epochs).map
      (fun i => [ops.epoch_train i, ops.epoch_validation i, ops.save_checkpoint i])).flatten ++
    [ops.load_checkpoint, ops.run_test]

/-- Script 1 as straight-line fallible code (it contains no try/except). -/
def script1Flow {ε : Type} (ops : Script1Ops ε) (epochs : Nat) : Except ε Unit :=
  runSeq (script1Stages ops epochs)

/-- The fallible framework operations performed by Script 2, abstracted. -/
structure Script2Ops (ε : Type) where
  download_data : Except ε Unit
  build_model : Except ε Unit
  epoch_train : Nat → Except ε Unit
  epoch_validation : Nat → Except ε Unit
  save_checkpoint : Nat → Except ε Unit
  evaluate : Except ε Unit
  visualize : Except ε Unit

/-- The straight-line stage sequence of Script 2 (lines 33-291 and onward):
data download, model construction, per-epoch train / validation /
checkpointing, then evaluation and attention visualization. -/
def script2Stages {ε : Type} (ops : Script2Ops ε) (epochs : Nat) :
    List (Except ε Unit) :=
  [ops.download_data, ops.build_model] ++
    ((List.range epochs).map
      (fun i => [ops.epoch_train i, ops.epoch_validation i, ops.save_checkpoint i])).flatten ++
    [ops.evaluate, ops.visualize]

/-- Script 2 as straight-line fallible code (it contains no try/except). -/
def script2Flow {ε : Type} (ops : Script2Ops ε) (epochs : Nat) : Except ε Unit :=
  runSeq (script2Stages ops epochs)

/-- torch Tensor.repeat: tile the tensor along each dimension; the element
at a multi-index of the tiled tensor is the source element at the index
reduced modulo the source shape. -/
def Tensor.trepeat {α : Type} (t : Tensor α) (reps : List Nat) : Tensor α :=
  let ns := List.zipWith (· * ·) reps t.shape
  ⟨ns, fun k => t.val (offset t.shape (List.zipWith (· % ·) (delin ns k) t.shape))⟩

/-- torch.cat([a, b], dim=1) for the rank-3 tensors of forward: positions
whose sequence index is below the first extent read the first tensor, the
rest read the second, shifted. -/
def Tensor.cat3 {α : Type} (a b : Tensor α) : Tensor α :=
  let B := a.shape.getD 0 0
  let S1 := a.shape.getD 1 0
  let E := a.shape.getD 2 0
  let S2 := b.shape.getD 1 0
  ⟨[B, S1 + S2, E], fun k =>
    let m := delin [B, S1 + S2, E] k
    if m.getD 1 0 < S1 then a.val (offset a.shape m)
    else b.val (offset b.shape [m.getD 0 0, m.getD 1 0 - S1, m.getD 2 0])⟩

/-- Slicing a tensor to the first len entries of dimension d, the effect of
pos_embedding[:, : T + 1]. -/
def Tensor.narrow {α : Type} (t : Tensor α) (d len : Nat) : Tensor α :=
  let ns := t.shape.set d (min len (t.shape.getD d 0))
  ⟨ns, fun k => t.val (offset t.shape (delin ns k))⟩

/-- Broadcast addition x + pos: dimensions of extent 1 in the right operand
repeat across the corresponding dimension of the left one. -/
def Tensor.addB {α : Type} [Add α] (a b : Tensor α) : Tensor α :=
  ⟨a.shape, fun k =>
    a.val k + b.val (offset b.shape (List.zipWith (· % ·) (delin a.shape k) b.shape))⟩

/-- Indexing x[0]: drop the leading dimension; on the row-major layout the
flat data of the first slice is an unchanged prefix. -/
def Tensor.select0 {α : Type} (t : Tensor α) : Tensor α :=
  ⟨t.shape.drop 1, t.val⟩

/-- The VisionTransformer module of Script 2 (lines 152-214).  The framework
layers it assembles (linear patch embedding, stacked attention blocks, MLP
head, dropout) are opaque functions; cls_token and pos_embedding are its
parameter tensors. -/
structure VisionTransformer (α : Type) where
  patch_size : Nat
  input_layer : Tensor α → Tensor α
  transformer : Tensor α → Tensor α
  mlp_head : Tensor α → Tensor α
  dropout_layer : Tensor α → Tensor α
  cls_token : Tensor α
  pos_embedding : Tensor α

/-- VisionTransformer.forward (lines 195-214): patch the image, embed the
patches, prepend the class token, add the positional embedding, apply
dropout, transpose to sequence-first, run the transformer, and apply the MLP
head to the sequence element at position 0 only. -/
def VisionTransformer.forward {α : Type} [Add α] (M : VisionTransformer α)
    (x : Tensor α) : Option (Tensor α) :=
  match img_to_patch x M.patch_size true with
  | none => none
  | some xp =>
    match xp.shape with
    | [B, T, _] =>
      let x1 := M.input_layer xp
      let ct := M.cls_token.trepeat [B, 1, 1]
      let x2 := Tensor.cat3 ct x1
      let x3 := x2.addB (M.pos_embedding.narrow 1 (T + 1))
      let x4 := M.dropout_layer x3
      let x5 := x4.permute [1, 0, 2]
      let x6 := M.transformer x5
      some (M.mlp_head x6.select0)
    | _ => none

/-- A concrete VisionTransformer instance on 1 by 1 images with patch size 1,
used to evaluate the forward theorem on an explicit input. -/
def vitW : VisionTransformer Int :=
  ⟨1, fun _ => ⟨[1, 1, 1], fun _ => 0⟩, fun _ => ⟨[2, 1, 1], fun _ => 0⟩,
    fun _ => ⟨[1, 1], fun _ => 0⟩, fun _ => ⟨[1, 2, 1], fun _ => 0⟩,
    ⟨[1, 1, 1], fun _ => 0⟩, ⟨[1, 2, 1], fun _ => 0⟩⟩

/-- A concrete 1 by 1 single-channel batched image. -/
def imgW : Tensor Int := ⟨[1, 1, 1, 1], fun _ => 0⟩

/-! Helper lemmas about the row-major layout. -/

theorem offset_lt_prod {s idx : List Nat} (h : List.Forall₂ (· < ·) idx s) :
    offset s idx < s.prod := by
  induction h with
  | nil => simp [offset]
  | @cons a b as bs hab _ ih =>
    simp only [offset, List.prod_cons]
    calc a * bs.prod + offset bs as < a * bs.prod + bs.prod := by omega
      _ = (a + 1) * bs.prod := by ring
      _ ≤ b * bs.prod := Nat.mul_le_mul_right _ hab

theorem div_mod_mixed (P a r : Nat) (hp : 0 < P) (hr : r < P) :
    (a * P + r) / P = a ∧ (a * P + r) % P = r := by
  constructor
  · have h1 : a * P + r = r + P * a := by ring
    rw [h1, Nat.add_mul_div_left _ _ hp, Nat.div_eq_of_lt hr]
    omega
  · have h1 : a * P + r = r + a * P := by ring
    rw [h1, Nat.add_mul_mod_self_right, Nat.mod_eq_of_lt hr]

theorem delin_offset {s idx : List Nat} (h : List.Forall₂ (· < ·) idx s) :
    delin s (offset s idx) = idx := by
  induction h with
  | nil => simp [delin, offset]
  | @cons a b as bs _ hrest ih =>
    have hlt : offset bs as < bs.prod := offset_lt_prod hrest
    have hpos : 0 < bs.prod := Nat.pos_of_ne_zero (by omega)
    obtain ⟨hdiv, hmod⟩ := div_mod_mixed bs.prod a (offset bs as) hpos hlt
    simp only [delin, offset]
    rw [hdiv, hmod, ih]

/-- Cancellation for a two-digit mixed-radix representation. -/
theorem mixed_radix_inj {W a b c d : Nat} (hb : b < W) (hd : d < W)
    (h : a * W + b = c * W + d) : a = c ∧ b = d := by
  have hw : 0 < W := by omega
  have ha : (a * W + b) / W = a := (div_mod_mixed W a b hw hb).1
  have hc : (c * W + d) / W = c := (div_mod_mixed W c d hw hd).1
  have hac : a = c := by rw [← ha, ← hc, h]
  subst hac
  exact ⟨rfl, by omega⟩

/-- C2: the training data of Script 1 pairs each even number with the next
odd number: the input array is exactly 2, 4, ..., 9998, the target array is
exactly 3, 5, ..., 9999, the target at every index is the input plus one,
and in test() the j-th target token after the leading 0 is the j-th source
token plus one. -/
theorem c2_training_pairs :
    demoInp.length = 4999 ∧ demoTgt.length = 4999 ∧
    (∀ i, i < 4999 → demoInp.getD i 0 = 2 + 2 * i) ∧
    (∀ i, i < 4999 → demoTgt.getD i 0 = 3 + 2 * i) ∧
    (∀ i, i < 4999 → demoTgt.getD i 0 = demoInp.getD i 0 + 1) ∧
    (∀ n, n ∈ demoInp ↔ 2 ≤ n ∧ n ≤ 9998 ∧ n % 2 = 0) ∧
    (∀ n, n ∈ demoTgt ↔ 3 ≤ n ∧ n ≤ 9999 ∧ n % 2 = 1) ∧
    (∀ s max_len j, j < max_len →
      (testTgt s max_len).getD (j + 1) 0 = (testSrc s max_len).getD j 0 + 1) := by
  have hinp : demoInp = List.range' 2 4999 2 := by norm_num [demoInp, arange, voc_size]
  have htgt : demoTgt = List.range' 3 4999 2 := by norm_num [demoTgt, arange, voc_size]
  have hgi : ∀ i, i < 4999 → demoInp.getD i 0 = 2 + 2 * i := by
    intro i hi
    rw [hinp, List.getD_eq_getElem _ _ (by simpa using hi), List.getElem_range']
  have hgt : ∀ i, i < 4999 → demoTgt.getD i 0 = 3 + 2 * i := by
    intro i hi
    rw [htgt, List.getD_eq_getElem _ _ (by simpa using hi), List.getElem_range']
  refine ⟨by rw [hinp]; simp, by rw [htgt]; simp, hgi, hgt, ?_, ?_, ?_, ?_⟩
  · intro i hi; rw [hgi i hi, hgt i hi]; omega
  · intro n
    rw [hinp, List.mem_range']
    constructor
    · rintro ⟨i, hi, rfl⟩; omega
    · rintro ⟨h1, h2, h3⟩; exact ⟨(n - 2) / 2, by omega, by omega⟩
  · intro n
    rw [htgt, List.mem_range']
    constructor
    · rintro ⟨i, hi, rfl⟩; omega
    · rintro ⟨h1, h2, h3⟩; exact ⟨(n - 3) / 2, by omega, by omega⟩
  · intro s max_len j hj
    simp only [testTgt, testSrc, List.getD_cons_succ]
    rw [List.getD_eq_getElem _ _ (by simpa using hj),
      List.getD_eq_getElem _ _ (by simpa using hj)]
    simp

/-- C2 witness: the pairing at index 0 of the concrete arrays. -/
theorem c2_witness : demoTgt.getD 0 0 = demoInp.getD 0 0 + 1 :=
  c2_training_pairs.2.2.2.2.1 0 (by norm_num)

/-- C10 counterexample: randint(1, 4998) can return s = 1, and then test()
feeds the source token (1 + 0) * 2 = 2, which is not in the interval
[4, 9998] stated by the claim. -/
theorem c10_counterexample : 2 ∈ testSrc 1 3 ∧ ¬ 4 ≤ 2 := by decide

/-- C10 (amended): with s drawn from [1, 4997] and max_len = 3, every source
token (s + j) * 2 built by test() lies in [2, 9998], hence strictly below
the vocabulary size 10000, so the embedding lookup index is in bounds. -/
theorem c10_src_tokens_in_vocab (s : Nat) (h1 : 1 ≤ s) (h2 : s < 4998) :
    ∀ t ∈ testSrc s 3, 2 ≤ t ∧ t ≤ 9998 ∧ t < voc_size := by
  intro t ht
  simp only [testSrc, List.mem_map, List.mem_range] at ht
  obtain ⟨j, hj, rfl⟩ := ht
  refine ⟨by omega, by omega, ?_⟩
  simp only [voc_size]
  omega

/-- C10 witness: the token bound evaluated at s = 1 on its first token. -/
theorem c10_witness : 2 ≤ 2 ∧ 2 ≤ 9998 ∧ 2 < voc_size :=
  c10_src_tokens_in_vocab 1 (by decide) (by decide) 2 (by decide)

/-- C9 counterexample: on an empty validation loader, Script 2 reaches its
average with i still bound to 3 by the module-level patch-plotting loop, so
avg_vloss is the well-defined value 0 / 4 = 0 rather than a division by an
undefined loop index. -/
theorem c9_counterexample :
    script2LoopI plotLoopI 0 = 3 ∧ script2ValAvg plotLoopI [] = 0 := by
  refine ⟨rfl, ?_⟩
  norm_num [script2ValAvg, script2LoopI, plotLoopI]

/-- C9 (amended): train() and validation() of Script 1 return the arithmetic
mean of the per-batch losses, dividing by len(loader); on an empty loader
both divide zero by zero.  The analogous average of Script 2 on a nonempty
loader is also the mean, but on an empty loader it divides by the stale
module-level loop index i = 3 left by the plotting loop, yielding 0. -/
theorem c9_epoch_average :
    (∀ bl : List ℚ, bl ≠ [] →
      trainAvg bl = some (bl.sum / bl.length) ∧
      validationAvg bl = some (bl.sum / bl.length)) ∧
    trainAvg [] = none ∧ validationAvg [] = none ∧
    (∀ bl : List ℚ, bl ≠ [] → script2ValAvg plotLoopI bl = bl.sum / bl.length) ∧
    script2ValAvg plotLoopI [] = 0 := by
  refine ⟨?_, rfl, rfl, ?_, ?_⟩
  · intro bl hbl
    have : bl.length ≠ 0 := by simpa using hbl
    constructor <;> simp [trainAvg, validationAvg, this]
  · intro bl hbl
    have h0 : bl.length ≠ 0 := by simpa using hbl
    simp only [script2ValAvg, script2LoopI, h0, if_false]
    congr 1
    rw [Nat.cast_sub (Nat.one_le_iff_ne_zero.mpr h0)]
    push_cast
    ring
  · norm_num [script2ValAvg, script2LoopI, plotLoopI]

/-- C9 witness: the mean on the one-batch loss list [1]. -/
theorem c9_witness :
    trainAvg [(1 : ℚ)] = some (([(1 : ℚ)]).sum / (([(1 : ℚ)]).length : ℚ)) :=
  (c9_epoch_average.1 [(1 : ℚ)] (by simp)).1

/-- C3: test() performs greedy autoregressive decoding: pred starts as [0];
each of the max_len iterations feeds the fixed source together with the
current pred to the model and appends the argmax of the output at the last
position; previously generated tokens are never modified (each round extends
the previous pred); afterwards pred has length max_len + 1 and its first
element is still 0. -/
theorem c3_greedy_decoding
    (model : List Nat → List Nat → List (List ℚ)) (src : List Nat) (max_len : Nat) :
    testPred model src 0 = [0] ∧
    (∀ k, testPred model src (k + 1)
        = testPred model src k ++ [testStep model src (testPred model src k)]) ∧
    (∀ k, (testPred model src (k + 1)).take (k + 1) = testPred model src k) ∧
    (testPred model src max_len).length = max_len + 1 ∧
    (testPred model src max_len).head? = some 0 := by
  have hlen : ∀ k, (testPred model src k).length = k + 1 := by
    intro k
    induction k with
    | zero => rfl
    | succ n ih => simp [testPred, ih]
  have hhead : ∀ k, (testPred model src k).head? = some 0 := by
    intro k
    induction k with
    | zero => rfl
    | succ n ih =>
      rw [testPred, List.head?_append_of_ne_nil]
      · exact ih
      · intro hnil
        have := hlen n
        rw [hnil] at this
        simp at this
  refine ⟨rfl, fun k => rfl, ?_, hlen max_len, hhead max_len⟩
  intro k
  rw [testPred]
  have := hlen k
  rw [← this, List.take_left]

/-! Helper lemmas about the checkpoint-tracking loop. -/

theorem trainEpochStep_best_le (name : Nat → ℚ → String) (st : TrainState)
    (e : Nat) (l : ℚ) : (trainEpochStep name st e l).best ≤ st.best := by
  unfold trainEpochStep
  split
  · exact le_of_lt (by assumption)
  · exact le_refl _

theorem trainLoopGo_best_le (name : Nat → ℚ → String) (st : TrainState)
    (e : Nat) (ls : List ℚ) : (trainLoopGo name st e ls).best ≤ st.best := by
  induction ls generalizing st e with
  | nil => exact le_refl _
  | cons l ls ih =>
    exact le_trans (ih (trainEpochStep name st e l) (e + 1))
      (trainEpochStep_best_le name st e l)

theorem trainLoopGo_mem (name : Nat → ℚ → String) (st : TrainState) (e : Nat)
    (ls : List ℚ) (ev : SaveEvent) (h : ev ∈ (trainLoopGo name st e ls).saves) :
    ev ∈ st.saves ∨
      ∃ i, i < ls.length ∧ ev.epoch = e + i ∧ ls[i]? = some ev.loss ∧
        ev.fname = name ev.epoch ev.loss := by
  induction ls generalizing st e with
  | nil => exact Or.inl h
  | cons l ls ih =>
    rcases ih (trainEpochStep name st e l) (e + 1) h with hmem | ⟨i, hi, he, hl, hf⟩
    · unfold trainEpochStep at hmem
      split at hmem
      · simp only [List.mem_append, List.mem_singleton] at hmem
        rcases hmem with hmem | rfl
        · exact Or.inl hmem
        · exact Or.inr ⟨0, by simp, by simp, by simp, by simp⟩
      · exact Or.inl hmem
    · exact Or.inr ⟨i + 1, by simpa using hi, by omega, by simpa using hl, hf⟩

theorem trainLoopGo_no_improve (name : Nat → ℚ → String) (st : TrainState)
    (e : Nat) (ls : List ℚ) (h : ∀ l ∈ ls, st.best ≤ l) :
    trainLoopGo name st e ls = st := by
  induction ls generalizing e with
  | nil => rfl
  | cons l ls ih =>
    have hstep : trainEpochStep name st e l = st := by
      unfold trainEpochStep
      rw [if_neg (not_lt.mpr (h l (by simp)))]
    rw [trainLoopGo, hstep, ih (e + 1) (fun x hx => h x (by simp [hx]))]

theorem trainLoopGo_chain (name : Nat → ℚ → String) (st : TrainState) (e : Nat)
    (ls : List ℚ) (h1 : List.Chain' (· > ·) (st.saves.map SaveEvent.loss))
    (h2 : ∀ ev ∈ st.saves, st.best ≤ ev.loss) :
    List.Chain' (· > ·) ((trainLoopGo name st e ls).saves.map SaveEvent.loss) ∧
      ∀ ev ∈ (trainLoopGo name st e ls).saves,
        (trainLoopGo name st e ls).best ≤ ev.loss := by
  induction ls generalizing st e with
  | nil => exact ⟨h1, h2⟩
  | cons l ls ih =>
    rw [trainLoopGo]
    by_cases hlt : l < st.best
    · have hstep : trainEpochStep name st e l
          = ⟨l, st.saves ++ [⟨e, l, name e l⟩]⟩ := by
        unfold trainEpochStep
        rw [if_pos hlt]
      refine ih (trainEpochStep name st e l) (e + 1) ?_ ?_
      · rw [hstep]
        simp only [List.map_append, List.map_cons, List.map_nil]
        rw [List.chain'_append]
        refine ⟨h1, List.chain'_singleton _, ?_⟩
        intro x hx y hy
        simp only [List.head?_cons, Option.mem_def, Option.some.injEq] at hy
        subst hy
        obtain ⟨hne, hxl⟩ := List.mem_getLast?_eq_getLast hx
        have hxmem : x ∈ st.saves.map SaveEvent.loss := by
          rw [hxl]
          exact List.getLast_mem hne
        obtain ⟨ev, hev, hevx⟩ := List.mem_map.mp hxmem
        have hbx := h2 ev hev
        rw [hevx] at hbx
        exact lt_of_lt_of_le hlt hbx
      · rw [hstep]
        intro ev hev
        simp only [List.mem_append, List.mem_singleton] at hev
        rcases hev with hev | rfl
        · exact le_of_lt (lt_of_lt_of_le hlt (h2 ev hev))
        · exact le_refl _
    · have hstep : trainEpochStep name st e l = st := by
        unfold trainEpochStep
        rw [if_neg hlt]
      rw [hstep]
      exact ih st (e + 1) h1 h2

theorem trainLoopGo_take_succ (name : Nat → ℚ → String) (st : TrainState)
    (e i : Nat) (ls : List ℚ) (hi : i < ls.length) :
    trainLoopGo name st e (ls.take (i + 1))
      = trainEpochStep name (trainLoopGo name st e (ls.take i)) (e + i)
          (ls.getD i 0) := by
  induction ls generalizing st e i with
  | nil => simp at hi
  | cons l ls ih =>
    cases i with
    | zero => simp [trainLoopGo]
    | succ i =>
      have hi' : i < ls.length := by simpa using hi
      rw [List.take_succ_cons, List.take_succ_cons]
      simp only [trainLoopGo, List.getD_cons_succ]
      rw [ih (trainEpochStep name st e l) (e + 1) i hi']
      have he : e + 1 + i = e + (i + 1) := by omega
      rw [he]

/-- C5: every checkpoint save of Script 1 uses the filename
model/model_{loss:.5f}.pt formatted with that epoch validation loss, and
every checkpoint save of Script 2 uses the filename
./model_VisionTransformer_MNIST_{n}.pt with n the 1-based epoch number; in
both loops the recorded loss is exactly the validation loss of the epoch
that saved. -/
theorem c5_checkpoint_filenames (losses : List ℚ) :
    (∀ ev ∈ (script1Run losses).saves,
      ev.fname = script1CkptName ev.loss ∧ losses[ev.epoch]? = some ev.loss) ∧
    (∀ ev ∈ (script2Run losses).saves,
      ev.fname = script2CkptName ev.epoch ∧ losses[ev.epoch]? = some ev.loss) := by
  constructor
  · intro ev hev
    have hev' : ev ∈ (trainLoopGo (fun _ l => script1CkptName l)
        ⟨40, []⟩ 0 losses).saves := hev
    rcases trainLoopGo_mem _ _ _ _ ev hev' with hmem | ⟨i, _, he, hl, hf⟩
    · simp at hmem
    · refine ⟨hf, ?_⟩
      rw [he, Nat.zero_add]
      exact hl
  · intro ev hev
    have hev' : ev ∈ (trainLoopGo (fun ep _ => script2CkptName ep)
        ⟨1000000, []⟩ 0 losses).saves := hev
    rcases trainLoopGo_mem _ _ _ _ ev hev' with hmem | ⟨i, _, he, hl, hf⟩
    · simp at hmem
    · refine ⟨hf, ?_⟩
      rw [he, Nat.zero_add]
      exact hl

/-- C5 witness: the save performed by Script 1 on the loss list [1]. -/
theorem c5_witness :
    (SaveEvent.mk 0 1 (script1CkptName 1)).fname
        = script1CkptName (SaveEvent.mk 0 1 (script1CkptName 1)).loss ∧
      ([(1 : ℚ)])[(SaveEvent.mk 0 1 (script1CkptName 1)).epoch]?
        = some (SaveEvent.mk 0 1 (script1CkptName 1)).loss :=
  (c5_checkpoint_filenames [(1 : ℚ)]).1 (SaveEvent.mk 0 1 (script1CkptName 1))
    (by simp [script1Run, trainLoopGo, trainEpochStep,
      show (1 : ℚ) < 40 by norm_num])

/-- C8: in both training loops a checkpoint is saved in an epoch exactly when
that epoch validation loss is strictly below the best seen so far
(initialized to 40 in Script 1 and 1000000 in Script 2), and the best value
is then updated to that loss; the tracked best loss never increases across
epochs, the validation losses at which checkpoints are saved are strictly
decreasing, and Script 1 saves nothing in a run whose losses never drop
below 40. -/
theorem c8_checkpoint_policy (losses : List ℚ) :
    (∀ i, i < losses.length →
      (losses.getD i 0 < (script1Run (losses.take i)).best →
        (script1Run (losses.take (i + 1))).saves
          = (script1Run (losses.take i)).saves
              ++ [⟨i, losses.getD i 0, script1CkptName (losses.getD i 0)⟩] ∧
        (script1Run (losses.take (i + 1))).best = losses.getD i 0) ∧
      (¬ losses.getD i 0 < (script1Run (losses.take i)).best →
        script1Run (losses.take (i + 1)) = script1Run (losses.take i))) ∧
    (∀ i, (script1Run (losses.take (i + 1))).best
        ≤ (script1Run (losses.take i)).best) ∧
    List.Chain' (· > ·) ((script1Run losses).saves.map SaveEvent.loss) ∧
    ((∀ l ∈ losses, 40 ≤ l) → (script1Run losses).saves = []) ∧
    (∀ i, i < losses.length →
      (losses.getD i 0 < (script2Run (losses.take i)).best →
        (script2Run (losses.take (i + 1))).saves
          = (script2Run (losses.take i)).saves
              ++ [⟨i, losses.getD i 0, script2CkptName i⟩] ∧
        (script2Run (losses.take (i + 1))).best = losses.getD i 0) ∧
      (¬ losses.getD i 0 < (script2Run (losses.take i)).best →
        script2Run (losses.take (i + 1)) = script2Run (losses.take i))) ∧
    (∀ i, (script2Run (losses.take (i + 1))).best
        ≤ (script2Run (losses.take i)).best) ∧
    List.Chain' (· > ·) ((script2Run losses).saves.map SaveEvent.loss) := by
  refine ⟨?_, ?_, ?_, ?_, ?_, ?_, ?_⟩
  · intro i hi
    have hdec : script1Run (losses.take (i + 1))
        = trainEpochStep (fun _ l => script1CkptName l)
            (script1Run (losses.take i)) (0 + i) (losses.getD i 0) :=
      trainLoopGo_take_succ _ _ 0 i losses hi
    constructor
    · intro hlt
      rw [hdec]
      unfold trainEpochStep
      rw [if_pos hlt]
      exact ⟨by simp, rfl⟩
    · intro hge
      rw [hdec]
      unfold trainEpochStep
      rw [if_neg hge]
  · intro i
    by_cases hi : i < losses.length
    · have hdec : script1Run (losses.take (i + 1))
          = trainEpochStep (fun _ l => script1CkptName l)
              (script1Run (losses.take i)) (0 + i) (losses.getD i 0) :=
        trainLoopGo_take_succ _ _ 0 i losses hi
      rw [hdec]
      exact trainEpochStep_best_le _ _ _ _
    · rw [List.take_of_length_le (by omega), List.take_of_length_le (by omega)]
  · exact (trainLoopGo_chain _ ⟨40, []⟩ 0 losses (by simp) (by simp)).1
  · intro h
    have : script1Run losses = ⟨40, []⟩ :=
      trainLoopGo_no_improve _ _ 0 losses h
    rw [this]
  · intro i hi
    have hdec : script2Run (losses.take (i + 1))
        = trainEpochStep (fun ep _ => script2CkptName ep)
            (script2Run (losses.take i)) (0 + i) (losses.getD i 0) :=
      trainLoopGo_take_succ _ _ 0 i losses hi
    constructor
    · intro hlt
      rw [hdec]
      unfold trainEpochStep
      rw [if_pos hlt]
      exact ⟨by simp, rfl⟩
    · intro hge
      rw [hdec]
      unfold trainEpochStep
      rw [if_neg hge]
  · intro i
    by_cases hi : i < losses.length
    · have hdec : script2Run (losses.take (i + 1))
          = trainEpochStep (fun ep _ => script2CkptName ep)
              (script2Run (losses.take i)) (0 + i) (losses.getD i 0) :=
        trainLoopGo_take_succ _ _ 0 i losses hi
      rw [hdec]
      exact trainEpochStep_best_le _ _ _ _
    · rw [List.take_of_length_le (by omega), List.take_of_length_le (by omega)]
  · exact (trainLoopGo_chain _ ⟨1000000, []⟩ 0 losses (by simp) (by simp)).1

/-- C8 witness: a Script 1 run whose only validation loss is 41 saves no
checkpoint. -/
theorem c8_witness : (script1Run [(41 : ℚ)]).saves = [] :=
  (c8_checkpoint_policy [(41 : ℚ)]).2.2.2.1
    (by intro l hl; rw [List.mem_singleton] at hl; subst hl; norm_num)

/-! Helper lemmas about straight-line fallible execution. -/

theorem runSeq_error {ε : Type} (pre : List (Except ε Unit)) (e : ε)
    (post : List (Except ε Unit)) (h : ∀ s ∈ pre, s = Except.ok ()) :
    runSeq (pre ++ Except.error e :: post) = Except.error e := by
  induction pre with
  | nil => rfl
  | cons s pre ih =>
    have hs := h s (by simp)
    subst hs
    rw [List.cons_append]
    exact ih (fun x hx => h x (by simp [hx]))

theorem runSeq_ok {ε : Type} (l : List (Except ε Unit))
    (h : ∀ s ∈ l, s = Except.ok ()) : runSeq l = Except.ok () := by
  induction l with
  | nil => rfl
  | cons s l ih =>
    have hs := h s (by simp)
    subst hs
    exact ih (fun x hx => h x (by simp [hx]))

/-- C6: Script 1 registers exactly the two optional string flags
--test_model and --train_model; its parser accepts only those and rejects
any other token in flag position and any trailing flag without a value;
with --test_model supplied the dispatch skips training and tests exactly
that path, and otherwise it runs main() on the optional --train_model path
and tests the checkpoint name main() returns. -/
theorem c6_cli :
    script1ArgSpecs.map ArgSpec.flag = ["--test_model", "--train_model"] ∧
    script1ArgSpecs.length = 2 ∧
    (∀ a ∈ script1ArgSpecs, a.is_str = true ∧ a.required = false) ∧
    parseArgs [] ⟨none, none⟩ = some ⟨none, none⟩ ∧
    (∀ p rest acc, parseArgs ("--test_model" :: p :: rest) acc
        = parseArgs rest ⟨some p, acc.train_model⟩) ∧
    (∀ p rest acc, parseArgs ("--train_model" :: p :: rest) acc
        = parseArgs rest ⟨acc.test_model, some p⟩) ∧
    (∀ a v rest acc, a ≠ "--test_model" → a ≠ "--train_model" →
        parseArgs (a :: v :: rest) acc = none) ∧
    (∀ a acc, parseArgs [a] acc = none) ∧
    (∀ mainFn p tm, script1Dispatch mainFn ⟨some p, tm⟩ = (false, some p)) ∧
    (∀ mainFn tm, script1Dispatch mainFn ⟨none, tm⟩ = (true, mainFn tm)) := by
  refine ⟨rfl, rfl, by decide, rfl, ?_, ?_, ?_, ?_, ?_, ?_⟩
  · intro p rest acc
    simp [parseArgs]
  · intro p rest acc
    simp [parseArgs]
  · intro a v rest acc h1 h2
    simp [parseArgs, h1, h2]
  · intro a acc
    rfl
  · intro mainFn p tm
    rfl
  · intro mainFn tm
    rfl

/-- C6 witness: an unregistered flag is rejected. -/
theorem c6_witness : parseArgs ["--foo", "x"] ⟨none, none⟩ = none :=
  c6_cli.2.2.2.2.2.2.1 "--foo" "x" [] ⟨none, none⟩ (by decide) (by decide)

/-- C7: neither script catches any exception: modelling each script as its
straight-line sequence of fallible framework stages, the first failing stage
makes the whole script return exactly that error, with no retry or recovery,
and a script all of whose stages succeed returns success. -/
theorem c7_no_error_handling :
    (∀ (ε : Type) (ops : Script1Ops ε) (epochs : Nat) (e : ε)
        (pre post : List (Except ε Unit)),
      script1Stages ops epochs = pre ++ Except.error e :: post →
      (∀ s ∈ pre, s = Except.ok ()) →
      script1Flow ops epochs = Except.error e) ∧
    (∀ (ε : Type) (ops : Script1Ops ε) (epochs : Nat),
      (∀ s ∈ script1Stages ops epochs, s = Except.ok ()) →
      script1Flow ops epochs = Except.ok ()) ∧
    (∀ (ε : Type) (ops : Script2Ops ε) (epochs : Nat) (e : ε)
        (pre post : List (Except ε Unit)),
      script2Stages ops epochs = pre ++ Except.error e :: post →
      (∀ s ∈ pre, s = Except.ok ()) →
      script2Flow ops epochs = Except.error e) ∧
    (∀ (ε : Type) (ops : Script2Ops ε) (epochs : Nat),
      (∀ s ∈ script2Stages ops epochs, s = Except.ok ()) →
      script2Flow ops epochs = Except.ok ()) := by
  refine ⟨?_, ?_, ?_, ?_⟩
  · intro ε ops epochs e pre post hdec hpre
    unfold script1Flow
    rw [hdec]
    exact runSeq_error pre e post hpre
  · intro ε ops epochs h
    exact runSeq_ok _ h
  · intro ε ops epochs e pre post hdec hpre
    unfold script2Flow
    rw [hdec]
    exact runSeq_error pre e post hpre
  · intro ε ops epochs h
    exact runSeq_ok _ h

/-- C7 witness: a failure in the model-construction stage of Script 1
propagates unchanged to the top level. -/
theorem c7_witness :
    script1Flow (⟨Except.ok (), Except.error 7, fun _ => Except.ok (),
        fun _ => Except.ok (), fun _ => Except.ok (), Except.ok (),
        Except.ok ()⟩ : Script1Ops Nat) 1 = Except.error 7 :=
  c7_no_error_handling.1 Nat _ 1 7 [Except.ok ()]
    [Except.ok (), Except.ok (), Except.ok (), Except.ok (), Except.ok ()]
    rfl
    (by intro s hs; rw [List.mem_singleton] at hs; exact hs)

/-- Evaluation of the permuted tensor of img_to_patch at an in-bounds
multi-index of the permuted shape. -/
theorem permute_val_eval {α : Type} (v : Nat → α) (B C Hp Wp p b h' w' c i j : Nat)
    (hb : b < B) (hc : c < C) (hh : h' < Hp) (hw : w' < Wp) (hi : i < p)
    (hj : j < p) :
    (Tensor.permute (⟨[B, C, Hp, p, Wp, p], v⟩ : Tensor α) [0, 2, 4, 1, 3, 5]).val
        (offset [B, Hp, Wp, C, p, p] [b, h', w', c, i, j])
      = v (offset [B, C, Hp, p, Wp, p] [b, c, h', i, w', j]) := by
  have hma : List.Forall₂ (· < ·) [b, h', w', c, i, j] [B, Hp, Wp, C, p, p] :=
    .cons hb (.cons hh (.cons hw (.cons hc (.cons hi (.cons hj .nil)))))
  change v (offset [B, C, Hp, p, Wp, p]
      ((List.range 6).map (fun a =>
        (delin [B, Hp, Wp, C, p, p]
          (offset [B, Hp, Wp, C, p, p] [b, h', w', c, i, j])).getD
          (([0, 2, 4, 1, 3, 5] : List Nat).indexOf a) 0)))
    = v (offset [B, C, Hp, p, Wp, p] [b, c, h', i, w', j])
  rw [delin_offset hma]
  rfl

/-- C1: img_to_patch is a pure re-layout of the pixels: with
flatten_channels the result has shape [B, (H/p)*(W/p), C*p*p] and its entry
at [b, h2*(W/p)+w2, c*p*p+i*p+j] is x[b, c, h2*p+i, w2*p+j]; without
flatten_channels the shape is [B, (H/p)*(W/p), C, p, p] with the same
correspondence; distinct pixel coordinates land at distinct output
coordinates, so every pixel appears exactly once. -/
theorem c1_img_to_patch {α : Type} (x : Tensor α) (B C H W p : Nat)
    (hshape : x.shape = [B, C, H, W]) (hp : 0 < p) (hH : p ∣ H) (hW : p ∣ W) :
    ∃ yT yF,
      img_to_patch x p true = some yT ∧
      img_to_patch x p false = some yF ∧
      yT.shape = [B, H / p * (W / p), C * (p * p)] ∧
      yF.shape = [B, H / p * (W / p), C, p, p] ∧
      (∀ b c h' w' i j : Nat, b < B → c < C → h' < H / p → w' < W / p → i < p → j < p →
        yT.get [b, h' * (W / p) + w', c * (p * p) + i * p + j]
            = x.get [b, c, h' * p + i, w' * p + j] ∧
        yF.get [b, h' * (W / p) + w', c, i, j]
            = x.get [b, c, h' * p + i, w' * p + j]) ∧
      (∀ b c h' w' i j b2 c2 h2 w2 i2 j2 : Nat,
        c < C → w' < W / p → i < p → j < p →
        c2 < C → w2 < W / p → i2 < p → j2 < p →
        b = b2 → h' * (W / p) + w' = h2 * (W / p) + w2 →
        c * (p * p) + i * p + j = c2 * (p * p) + i2 * p + j2 →
        b = b2 ∧ c = c2 ∧ h' = h2 ∧ w' = w2 ∧ i = i2 ∧ j = j2) := by
  obtain ⟨Hp, rfl⟩ := hH
  obtain ⟨Wp, rfl⟩ := hW
  obtain ⟨s, v⟩ := x
  dsimp only at hshape
  subst hshape
  have hdiv1 : p * Hp / p = Hp := Nat.mul_div_cancel_left Hp hp
  have hdiv2 : p * Wp / p = Wp := Nat.mul_div_cancel_left Wp hp
  simp only [hdiv1, hdiv2]
  refine ⟨(((Tensor.reshape ⟨[B, C, p * Hp, p * Wp], v⟩
        [B, C, Hp, p, Wp, p]).permute [0, 2, 4, 1, 3, 5]).flatten 1 2).flatten 2 4,
    ((Tensor.reshape ⟨[B, C, p * Hp, p * Wp], v⟩
        [B, C, Hp, p, Wp, p]).permute [0, 2, 4, 1, 3, 5]).flatten 1 2,
    ?_, ?_, ?_, ?_, ?_, ?_⟩
  · have hrfl : img_to_patch (⟨[B, C, p * Hp, p * Wp], v⟩ : Tensor α) p true
        = some ((((Tensor.reshape ⟨[B, C, p * Hp, p * Wp], v⟩
            [B, C, p * Hp / p, p, p * Wp / p, p]).permute
              [0, 2, 4, 1, 3, 5]).flatten 1 2).flatten 2 4) := rfl
    rw [hrfl, hdiv1, hdiv2]
  · have hrfl : img_to_patch (⟨[B, C, p * Hp, p * Wp], v⟩ : Tensor α) p false
        = some (((Tensor.reshape ⟨[B, C, p * Hp, p * Wp], v⟩
            [B, C, p * Hp / p, p, p * Wp / p, p]).permute
              [0, 2, 4, 1, 3, 5]).flatten 1 2) := rfl
    rw [hrfl, hdiv1, hdiv2]
  · show [B, Hp * (Wp * 1), C * (p * (p * 1))] = [B, Hp * Wp, C * (p * p)]
    simp
  · show [B, Hp * (Wp * 1), C, p, p] = [B, Hp * Wp, C, p, p]
    simp
  · intro b c h' w' i j hb hc hh hw hi hj
    constructor
    · change (Tensor.permute (⟨[B, C, Hp, p, Wp, p], v⟩ : Tensor α)
          [0, 2, 4, 1, 3, 5]).val
          (offset [B, Hp * (Wp * 1), C * (p * (p * 1))]
            [b, h' * Wp + w', c * (p * p) + i * p + j])
        = v (offset [B, C, p * Hp, p * Wp] [b, c, h' * p + i, w' * p + j])
      have harg : offset [B, Hp * (Wp * 1), C * (p * (p * 1))]
          [b, h' * Wp + w', c * (p * p) + i * p + j]
          = offset [B, Hp, Wp, C, p, p] [b, h', w', c, i, j] := by
        simp only [offset, List.prod_cons, List.prod_nil]
        ring
      rw [harg, permute_val_eval v B C Hp Wp p b h' w' c i j hb hc hh hw hi hj]
      exact congrArg v (by simp only [offset, List.prod_cons, List.prod_nil]; ring)
    · change (Tensor.permute (⟨[B, C, Hp, p, Wp, p], v⟩ : Tensor α)
          [0, 2, 4, 1, 3, 5]).val
          (offset [B, Hp * (Wp * 1), C, p, p] [b, h' * Wp + w', c, i, j])
        = v (offset [B, C, p * Hp, p * Wp] [b, c, h' * p + i, w' * p + j])
      have harg : offset [B, Hp * (Wp * 1), C, p, p] [b, h' * Wp + w', c, i, j]
          = offset [B, Hp, Wp, C, p, p] [b, h', w', c, i, j] := by
        simp only [offset, List.prod_cons, List.prod_nil]
        ring
      rw [harg, permute_val_eval v B C Hp Wp p b h' w' c i j hb hc hh hw hi hj]
      exact congrArg v (by simp only [offset, List.prod_cons, List.prod_nil]; ring)
  · intro b c h' w' i j b2 c2 h2 w2 i2 j2 hc hw hi hj hc2 hw2 hi2 hj2 hbb hts hes
    obtain ⟨hhh, hww⟩ := mixed_radix_inj hw hw2 hts
    have hije : i * p + j < p * p := by
      calc i * p + j < i * p + p := by omega
        _ = (i + 1) * p := by ring
        _ ≤ p * p := Nat.mul_le_mul_right p hi
    have hije2 : i2 * p + j2 < p * p := by
      calc i2 * p + j2 < i2 * p + p := by omega
        _ = (i2 + 1) * p := by ring
        _ ≤ p * p := Nat.mul_le_mul_right p hi2
    have hes2 : c * (p * p) + (i * p + j) = c2 * (p * p) + (i2 * p + j2) := by omega
    obtain ⟨hcc, hije3⟩ := mixed_radix_inj hije hije2 hes2
    obtain ⟨hii, hjj⟩ := mixed_radix_inj hj hj2 hije3
    exact ⟨hbb, hcc, hhh, hww, hii, hjj⟩

/-- C1 witness: the re-layout theorem instantiated on a concrete 2 by 2
single-channel image with patch size 1. -/
theorem c1_witness :
    ∃ yT yF,
      img_to_patch (⟨[1, 1, 2, 2], fun k => k⟩ : Tensor Nat) 1 true = some yT ∧
      img_to_patch (⟨[1, 1, 2, 2], fun k => k⟩ : Tensor Nat) 1 false = some yF ∧
      yT.shape = [1, 2 / 1 * (2 / 1), 1 * (1 * 1)] ∧
      yF.shape = [1, 2 / 1 * (2 / 1), 1, 1, 1] ∧
      (∀ b c h' w' i j : Nat,
        b < 1 → c < 1 → h' < 2 / 1 → w' < 2 / 1 → i < 1 → j < 1 →
        yT.get [b, h' * (2 / 1) + w', c * (1 * 1) + i * 1 + j]
            = (⟨[1, 1, 2, 2], fun k => k⟩ : Tensor Nat).get
                [b, c, h' * 1 + i, w' * 1 + j] ∧
        yF.get [b, h' * (2 / 1) + w', c, i, j]
            = (⟨[1, 1, 2, 2], fun k => k⟩ : Tensor Nat).get
                [b, c, h' * 1 + i, w' * 1 + j]) ∧
      (∀ b c h' w' i j b2 c2 h2 w2 i2 j2 : Nat,
        c < 1 → w' < 2 / 1 → i < 1 → j < 1 →
        c2 < 1 → w2 < 2 / 1 → i2 < 1 → j2 < 1 →
        b = b2 → h' * (2 / 1) + w' = h2 * (2 / 1) + w2 →
        c * (1 * 1) + i * 1 + j = c2 * (1 * 1) + i2 * 1 + j2 →
        b = b2 ∧ c = c2 ∧ h' = h2 ∧ w' = w2 ∧ i = i2 ∧ j = j2) :=
  c1_img_to_patch (⟨[1, 1, 2, 2], fun k => k⟩ : Tensor Nat) 1 1 2 2 1 rfl
    (by decide) (by decide) (by decide)

/-- The tiled class token reads the class token itself at every batch row. -/
theorem trepeat_cls_get {α : Type} (c : Tensor α) (E B b e : Nat)
    (hsh : c.shape = [1, 1, E]) (hb : b < B) (he : e < E) :
    (c.trepeat [B, 1, 1]).get [b, 0, e] = c.get [0, 0, e] := by
  obtain ⟨cs, cv⟩ := c
  dsimp only at hsh
  subst hsh
  have hma : List.Forall₂ (· < ·) [b, 0, e] [B * 1, 1 * 1, 1 * E] :=
    .cons (by omega) (.cons (by omega) (.cons (by omega) .nil))
  change cv (offset [1, 1, E]
      (List.zipWith (· % ·)
        (delin [B * 1, 1 * 1, 1 * E] (offset [B * 1, 1 * 1, 1 * E] [b, 0, e]))
        [1, 1, E]))
    = cv (offset [1, 1, E] [0, 0, e])
  rw [delin_offset hma]
  have hz : List.zipWith (· % ·) [b, 0, e] [1, 1, E] = [0, 0, e] := by
    simp [Nat.mod_one, Nat.mod_eq_of_lt he]
  rw [hz]

/-- Reading cat3 below the first extent gives the first tensor. -/
theorem cat3_get_left {α : Type} (a b : Tensor α) (B S1 S2 E b' s e : Nat)
    (ha : a.shape = [B, S1, E]) (hb : b.shape = [B, S2, E])
    (hb' : b' < B) (hs : s < S1) (he : e < E) :
    (Tensor.cat3 a b).get [b', s, e] = a.get [b', s, e] := by
  obtain ⟨as0, av⟩ := a
  obtain ⟨bs0, bv⟩ := b
  dsimp only at ha hb
  subst ha
  subst hb
  have hma : List.Forall₂ (· < ·) [b', s, e] [B, S1 + S2, E] :=
    .cons hb' (.cons (by omega) (.cons he .nil))
  change (if (delin [B, S1 + S2, E] (offset [B, S1 + S2, E] [b', s, e])).getD 1 0 < S1
      then av (offset [B, S1, E]
        (delin [B, S1 + S2, E] (offset [B, S1 + S2, E] [b', s, e])))
      else bv (offset [B, S2, E]
        [(delin [B, S1 + S2, E] (offset [B, S1 + S2, E] [b', s, e])).getD 0 0,
         (delin [B, S1 + S2, E] (offset [B, S1 + S2, E] [b', s, e])).getD 1 0 - S1,
         (delin [B, S1 + S2, E] (offset [B, S1 + S2, E] [b', s, e])).getD 2 0]))
    = av (offset [B, S1, E] [b', s, e])
  rw [delin_offset hma]
  show (if s < S1 then av (offset [B, S1, E] [b', s, e])
      else bv (offset [B, S2, E] [b', s - S1, e]))
    = av (offset [B, S1, E] [b', s, e])
  rw [if_pos hs]

/-- Reading cat3 at or above the first extent gives the second tensor,
shifted. -/
theorem cat3_get_right {α : Type} (a b : Tensor α) (B S1 S2 E b' s e : Nat)
    (ha : a.shape = [B, S1, E]) (hb : b.shape = [B, S2, E])
    (hb' : b' < B) (hs1 : S1 ≤ s) (hs : s < S1 + S2) (he : e < E) :
    (Tensor.cat3 a b).get [b', s, e] = b.get [b', s - S1, e] := by
  obtain ⟨as0, av⟩ := a
  obtain ⟨bs0, bv⟩ := b
  dsimp only at ha hb
  subst ha
  subst hb
  have hma : List.Forall₂ (· < ·) [b', s, e] [B, S1 + S2, E] :=
    .cons hb' (.cons hs (.cons he .nil))
  change (if (delin [B, S1 + S2, E] (offset [B, S1 + S2, E] [b', s, e])).getD 1 0 < S1
      then av (offset [B, S1, E]
        (delin [B, S1 + S2, E] (offset [B, S1 + S2, E] [b', s, e])))
      else bv (offset [B, S2, E]
        [(delin [B, S1 + S2, E] (offset [B, S1 + S2, E] [b', s, e])).getD 0 0,
         (delin [B, S1 + S2, E] (offset [B, S1 + S2, E] [b', s, e])).getD 1 0 - S1,
         (delin [B, S1 + S2, E] (offset [B, S1 + S2, E] [b', s, e])).getD 2 0]))
    = bv (offset [B, S2, E] [b', s - S1, e])
  rw [delin_offset hma]
  show (if s < S1 then av (offset [B, S1, E] [b', s, e])
      else bv (offset [B, S2, E] [b', s - S1, e]))
    = bv (offset [B, S2, E] [b', s - S1, e])
  rw [if_neg (not_lt.mpr hs1)]

/-- C4: VisionTransformer.forward prepends exactly one class token to the
patch-embedded sequence, making the sequence length T + 1 for T the number
of patches (num_patches + 1 on MNIST), adds the positional embedding, and
computes the classification output by applying the MLP head to the sequence
position of the class token (position 0) only, returning a tensor of shape
[batch, num_classes].  The framework layers are constrained only by their
shape contracts. -/
theorem c4_vit_forward {α : Type} [Add α] (M : VisionTransformer α)
    (x : Tensor α) (B C H W E K T : Nat)
    (hshape : x.shape = [B, C, H, W]) (hp : 0 < M.patch_size)
    (hH : M.patch_size ∣ H) (hW : M.patch_size ∣ W)
    (hT : T = H / M.patch_size * (W / M.patch_size))
    (hcls : M.cls_token.shape = [1, 1, E])
    (hin : ∀ t : Tensor α,
      t.shape = [B, T, C * (M.patch_size * M.patch_size)] →
      (M.input_layer t).shape = [B, T, E])
    (hdo : ∀ t : Tensor α, t.shape = [B, T + 1, E] →
      (M.dropout_layer t).shape = [B, T + 1, E])
    (htr : ∀ t : Tensor α, t.shape = [T + 1, B, E] →
      (M.transformer t).shape = [T + 1, B, E])
    (hmlp : ∀ t : Tensor α, t.shape = [B, E] →
      (M.mlp_head t).shape = [B, K]) :
    ∃ xp x2 y,
      img_to_patch x M.patch_size true = some xp ∧
      xp.shape = [B, T, C * (M.patch_size * M.patch_size)] ∧
      x2 = Tensor.cat3 (M.cls_token.trepeat [B, 1, 1]) (M.input_layer xp) ∧
      x2.shape = [B, T + 1, E] ∧
      (∀ b e : Nat, b < B → e < E →
        x2.get [b, 0, e] = M.cls_token.get [0, 0, e]) ∧
      (∀ b t e : Nat, b < B → t < T → e < E →
        x2.get [b, t + 1, e] = (M.input_layer xp).get [b, t, e]) ∧
      M.forward x = some y ∧
      y = M.mlp_head (Tensor.select0 (M.transformer
        ((M.dropout_layer
          (x2.addB (M.pos_embedding.narrow 1 (T + 1)))).permute [1, 0, 2]))) ∧
      y.shape = [B, K] := by
  obtain ⟨Hp, rfl⟩ := hH
  obtain ⟨Wp, rfl⟩ := hW
  obtain ⟨s, v⟩ := x
  dsimp only at hshape
  subst hshape
  have hdiv1 : M.patch_size * Hp / M.patch_size = Hp :=
    Nat.mul_div_cancel_left Hp hp
  have hdiv2 : M.patch_size * Wp / M.patch_size = Wp :=
    Nat.mul_div_cancel_left Wp hp
  rw [hdiv1, hdiv2] at hT
  subst hT
  have hxp : img_to_patch
      (⟨[B, C, M.patch_size * Hp, M.patch_size * Wp], v⟩ : Tensor α)
      M.patch_size true = some ((((Tensor.reshape ⟨[B, C, M.patch_size * Hp, M.patch_size * Wp], v⟩ [B, C, Hp, M.patch_size, Wp, M.patch_size]).permute [0, 2, 4, 1, 3, 5]).flatten 1 2).flatten 2 4) := by
    have hraw : img_to_patch
        (⟨[B, C, M.patch_size * Hp, M.patch_size * Wp], v⟩ : Tensor α)
        M.patch_size true = some ((((Tensor.reshape ⟨[B, C, M.patch_size * Hp, M.patch_size * Wp], v⟩ [B, C, M.patch_size * Hp / M.patch_size, M.patch_size, M.patch_size * Wp / M.patch_size, M.patch_size]).permute [0, 2, 4, 1, 3, 5]).flatten 1 2).flatten 2 4) := rfl
    rw [hraw, hdiv1, hdiv2]
  have hxpsh : ((((Tensor.reshape ⟨[B, C, M.patch_size * Hp, M.patch_size * Wp], v⟩ [B, C, Hp, M.patch_size, Wp, M.patch_size]).permute [0, 2, 4, 1, 3, 5]).flatten 1 2).flatten 2 4).shape
      = [B, Hp * Wp, C * (M.patch_size * M.patch_size)] := by
    show [B, Hp * (Wp * 1), C * (M.patch_size * (M.patch_size * 1))]
      = [B, Hp * Wp, C * (M.patch_size * M.patch_size)]
    simp
  have hct : ((M.cls_token.trepeat [B, 1, 1])).shape = [B, 1, E] := by
    show List.zipWith (· * ·) [B, 1, 1] M.cls_token.shape = [B, 1, E]
    rw [hcls]
    simp
  have hx1 : ((M.input_layer ((((Tensor.reshape ⟨[B, C, M.patch_size * Hp, M.patch_size * Wp], v⟩ [B, C, Hp, M.patch_size, Wp, M.patch_size]).permute [0, 2, 4, 1, 3, 5]).flatten 1 2).flatten 2 4))).shape = [B, Hp * Wp, E] := hin _ hxpsh
  have hx2sh : ((Tensor.cat3 (M.cls_token.trepeat [B, 1, 1]) (M.input_layer ((((Tensor.reshape ⟨[B, C, M.patch_size * Hp, M.patch_size * Wp], v⟩ [B, C, Hp, M.patch_size, Wp, M.patch_size]).permute [0, 2, 4, 1, 3, 5]).flatten 1 2).flatten 2 4)))).shape = [B, Hp * Wp + 1, E] := by
    show [((M.cls_token.trepeat [B, 1, 1])).shape.getD 0 0,
        ((M.cls_token.trepeat [B, 1, 1])).shape.getD 1 0 + ((M.input_layer ((((Tensor.reshape ⟨[B, C, M.patch_size * Hp, M.patch_size * Wp], v⟩ [B, C, Hp, M.patch_size, Wp, M.patch_size]).permute [0, 2, 4, 1, 3, 5]).flatten 1 2).flatten 2 4))).shape.getD 1 0,
        ((M.cls_token.trepeat [B, 1, 1])).shape.getD 2 0] = [B, Hp * Wp + 1, E]
    rw [hct, hx1]
    simp [Nat.add_comm]
  have hx3sh : (((Tensor.cat3 (M.cls_token.trepeat [B, 1, 1]) (M.input_layer ((((Tensor.reshape ⟨[B, C, M.patch_size * Hp, M.patch_size * Wp], v⟩ [B, C, Hp, M.patch_size, Wp, M.patch_size]).permute [0, 2, 4, 1, 3, 5]).flatten 1 2).flatten 2 4))).addB (M.pos_embedding.narrow 1 (Hp * Wp + 1)))).shape = [B, Hp * Wp + 1, E] := hx2sh
  have hx4sh : ((M.dropout_layer ((Tensor.cat3 (M.cls_token.trepeat [B, 1, 1]) (M.input_layer ((((Tensor.reshape ⟨[B, C, M.patch_size * Hp, M.patch_size * Wp], v⟩ [B, C, Hp, M.patch_size, Wp, M.patch_size]).permute [0, 2, 4, 1, 3, 5]).flatten 1 2).flatten 2 4))).addB (M.pos_embedding.narrow 1 (Hp * Wp + 1))))).shape = [B, Hp * Wp + 1, E] := hdo _ hx3sh
  have hx5sh : (((M.dropout_layer ((Tensor.cat3 (M.cls_token.trepeat [B, 1, 1]) (M.input_layer ((((Tensor.reshape ⟨[B, C, M.patch_size * Hp, M.patch_size * Wp], v⟩ [B, C, Hp, M.patch_size, Wp, M.patch_size]).permute [0, 2, 4, 1, 3, 5]).flatten 1 2).flatten 2 4))).addB (M.pos_embedding.narrow 1 (Hp * Wp + 1)))).permute [1, 0, 2])).shape = [Hp * Wp + 1, B, E] := by
    show [((M.dropout_layer ((Tensor.cat3 (M.cls_token.trepeat [B, 1, 1]) (M.input_layer ((((Tensor.reshape ⟨[B, C, M.patch_size * Hp, M.patch_size * Wp], v⟩ [B, C, Hp, M.patch_size, Wp, M.patch_size]).permute [0, 2, 4, 1, 3, 5]).flatten 1 2).flatten 2 4))).addB (M.pos_embedding.narrow 1 (Hp * Wp + 1))))).shape.getD 1 0, ((M.dropout_layer ((Tensor.cat3 (M.cls_token.trepeat [B, 1, 1]) (M.input_layer ((((Tensor.reshape ⟨[B, C, M.patch_size * Hp, M.patch_size * Wp], v⟩ [B, C, Hp, M.patch_size, Wp, M.patch_size]).permute [0, 2, 4, 1, 3, 5]).flatten 1 2).flatten 2 4))).addB (M.pos_embedding.narrow 1 (Hp * Wp + 1))))).shape.getD 0 0,
        ((M.dropout_layer ((Tensor.cat3 (M.cls_token.trepeat [B, 1, 1]) (M.input_layer ((((Tensor.reshape ⟨[B, C, M.patch_size * Hp, M.patch_size * Wp], v⟩ [B, C, Hp, M.patch_size, Wp, M.patch_size]).permute [0, 2, 4, 1, 3, 5]).flatten 1 2).flatten 2 4))).addB (M.pos_embedding.narrow 1 (Hp * Wp + 1))))).shape.getD 2 0] = [Hp * Wp + 1, B, E]
    rw [hx4sh]
    simp
  have hx6sh : ((M.transformer ((M.dropout_layer ((Tensor.cat3 (M.cls_token.trepeat [B, 1, 1]) (M.input_layer ((((Tensor.reshape ⟨[B, C, M.patch_size * Hp, M.patch_size * Wp], v⟩ [B, C, Hp, M.patch_size, Wp, M.patch_size]).permute [0, 2, 4, 1, 3, 5]).flatten 1 2).flatten 2 4))).addB (M.pos_embedding.narrow 1 (Hp * Wp + 1)))).permute [1, 0, 2]))).shape = [Hp * Wp + 1, B, E] := htr _ hx5sh
  have hs0sh : (Tensor.select0 (M.transformer ((M.dropout_layer ((Tensor.cat3 (M.cls_token.trepeat [B, 1, 1]) (M.input_layer ((((Tensor.reshape ⟨[B, C, M.patch_size * Hp, M.patch_size * Wp], v⟩ [B, C, Hp, M.patch_size, Wp, M.patch_size]).permute [0, 2, 4, 1, 3, 5]).flatten 1 2).flatten 2 4))).addB (M.pos_embedding.narrow 1 (Hp * Wp + 1)))).permute [1, 0, 2]))).shape = [B, E] := by
    show ((M.transformer ((M.dropout_layer ((Tensor.cat3 (M.cls_token.trepeat [B, 1, 1]) (M.input_layer ((((Tensor.reshape ⟨[B, C, M.patch_size * Hp, M.patch_size * Wp], v⟩ [B, C, Hp, M.patch_size, Wp, M.patch_size]).permute [0, 2, 4, 1, 3, 5]).flatten 1 2).flatten 2 4))).addB (M.pos_embedding.narrow 1 (Hp * Wp + 1)))).permute [1, 0, 2]))).shape.drop 1 = [B, E]
    rw [hx6sh]
    rfl
  have hysh : ((M.mlp_head (Tensor.select0 (M.transformer ((M.dropout_layer ((Tensor.cat3 (M.cls_token.trepeat [B, 1, 1]) (M.input_layer ((((Tensor.reshape ⟨[B, C, M.patch_size * Hp, M.patch_size * Wp], v⟩ [B, C, Hp, M.patch_size, Wp, M.patch_size]).permute [0, 2, 4, 1, 3, 5]).flatten 1 2).flatten 2 4))).addB (M.pos_embedding.narrow 1 (Hp * Wp + 1)))).permute [1, 0, 2]))))).shape = [B, K] := hmlp _ hs0sh
  have hfwd : VisionTransformer.forward M
      (⟨[B, C, M.patch_size * Hp, M.patch_size * Wp], v⟩ : Tensor α)
      = some ((M.mlp_head (Tensor.select0 (M.transformer ((M.dropout_layer ((Tensor.cat3 (M.cls_token.trepeat [B, 1, 1]) (M.input_layer ((((Tensor.reshape ⟨[B, C, M.patch_size * Hp, M.patch_size * Wp], v⟩ [B, C, Hp, M.patch_size, Wp, M.patch_size]).permute [0, 2, 4, 1, 3, 5]).flatten 1 2).flatten 2 4))).addB (M.pos_embedding.narrow 1 (Hp * Wp + 1)))).permute [1, 0, 2]))))) := by
    have hraw : VisionTransformer.forward M
        (⟨[B, C, M.patch_size * Hp, M.patch_size * Wp], v⟩ : Tensor α)
        = some ((M.mlp_head (Tensor.select0 (M.transformer ((M.dropout_layer ((Tensor.cat3 (M.cls_token.trepeat [B, 1, 1]) (M.input_layer ((((Tensor.reshape ⟨[B, C, M.patch_size * Hp, M.patch_size * Wp], v⟩ [B, C, M.patch_size * Hp / M.patch_size, M.patch_size, M.patch_size * Wp / M.patch_size, M.patch_size]).permute [0, 2, 4, 1, 3, 5]).flatten 1 2).flatten 2 4))).addB (M.pos_embedding.narrow 1 (M.patch_size * Hp / M.patch_size * (M.patch_size * Wp / M.patch_size * 1) + 1)))).permute [1, 0, 2]))))) := rfl
    rw [hraw, hdiv1, hdiv2]
    simp only [Nat.mul_one]
  have hleft : ∀ b e : Nat, b < B → e < E →
      ((Tensor.cat3 (M.cls_token.trepeat [B, 1, 1]) (M.input_layer ((((Tensor.reshape ⟨[B, C, M.patch_size * Hp, M.patch_size * Wp], v⟩ [B, C, Hp, M.patch_size, Wp, M.patch_size]).permute [0, 2, 4, 1, 3, 5]).flatten 1 2).flatten 2 4)))).get [b, 0, e] = M.cls_token.get [0, 0, e] := by
    intro b e hb he
    rw [cat3_get_left (M.cls_token.trepeat [B, 1, 1]) (M.input_layer ((((Tensor.reshape ⟨[B, C, M.patch_size * Hp, M.patch_size * Wp], v⟩ [B, C, Hp, M.patch_size, Wp, M.patch_size]).permute [0, 2, 4, 1, 3, 5]).flatten 1 2).flatten 2 4)) B 1 (Hp * Wp) E b 0 e hct hx1 hb
      (by omega) he]
    exact trepeat_cls_get M.cls_token E B b e hcls hb he
  have hright : ∀ b t e : Nat, b < B → t < Hp * Wp → e < E →
      ((Tensor.cat3 (M.cls_token.trepeat [B, 1, 1]) (M.input_layer ((((Tensor.reshape ⟨[B, C, M.patch_size * Hp, M.patch_size * Wp], v⟩ [B, C, Hp, M.patch_size, Wp, M.patch_size]).permute [0, 2, 4, 1, 3, 5]).flatten 1 2).flatten 2 4)))).get [b, t + 1, e] = ((M.input_layer ((((Tensor.reshape ⟨[B, C, M.patch_size * Hp, M.patch_size * Wp], v⟩ [B, C, Hp, M.patch_size, Wp, M.patch_size]).permute [0, 2, 4, 1, 3, 5]).flatten 1 2).flatten 2 4))).get [b, t, e] := by
    intro b t e hb ht he
    exact cat3_get_right (M.cls_token.trepeat [B, 1, 1]) (M.input_layer ((((Tensor.reshape ⟨[B, C, M.patch_size * Hp, M.patch_size * Wp], v⟩ [B, C, Hp, M.patch_size, Wp, M.patch_size]).permute [0, 2, 4, 1, 3, 5]).flatten 1 2).flatten 2 4)) B 1 (Hp * Wp) E b (t + 1) e hct hx1 hb
      (by omega) (by omega) he
  exact ⟨(((Tensor.reshape ⟨[B, C, M.patch_size * Hp, M.patch_size * Wp], v⟩ [B, C, Hp, M.patch_size, Wp, M.patch_size]).permute [0, 2, 4, 1, 3, 5]).flatten 1 2).flatten 2 4, (Tensor.cat3 (M.cls_token.trepeat [B, 1, 1]) (M.input_layer ((((Tensor.reshape ⟨[B, C, M.patch_size * Hp, M.patch_size * Wp], v⟩ [B, C, Hp, M.patch_size, Wp, M.patch_size]).permute [0, 2, 4, 1, 3, 5]).flatten 1 2).flatten 2 4))), (M.mlp_head (Tensor.select0 (M.transformer ((M.dropout_layer ((Tensor.cat3 (M.cls_token.trepeat [B, 1, 1]) (M.input_layer ((((Tensor.reshape ⟨[B, C, M.patch_size * Hp, M.patch_size * Wp], v⟩ [B, C, Hp, M.patch_size, Wp, M.patch_size]).permute [0, 2, 4, 1, 3, 5]).flatten 1 2).flatten 2 4))).addB (M.pos_embedding.narrow 1 (Hp * Wp + 1)))).permute [1, 0, 2])))), hxp, hxpsh, rfl, hx2sh, hleft, hright, hfwd,
    rfl, hysh⟩

/-- C4 witness: the forward theorem evaluated on the concrete instance with
1 by 1 images, patch size 1 and one class. -/
theorem c4_witness :
    ∃ xp x2 y,
      img_to_patch imgW vitW.patch_size true = some xp ∧
      xp.shape = [1, 1, 1 * (vitW.patch_size * vitW.patch_size)] ∧
      x2 = Tensor.cat3 (vitW.cls_token.trepeat [1, 1, 1])
        (vitW.input_layer xp) ∧
      x2.shape = [1, 1 + 1, 1] ∧
      (∀ b e : Nat, b < 1 → e < 1 →
        x2.get [b, 0, e] = vitW.cls_token.get [0, 0, e]) ∧
      (∀ b t e : Nat, b < 1 → t < 1 → e < 1 →
        x2.get [b, t + 1, e] = (vitW.input_layer xp).get [b, t, e]) ∧
      vitW.forward imgW = some y ∧
      y = vitW.mlp_head (Tensor.select0 (vitW.transformer
        ((vitW.dropout_layer
          (x2.addB (vitW.pos_embedding.narrow 1 (1 + 1)))).permute
            [1, 0, 2]))) ∧
      y.shape = [1, 1] :=
  c4_vit_forward vitW imgW 1 1 1 1 1 1 1 rfl (by decide) (by decide)
    (by decide) (by decide) rfl (fun t ht => rfl) (fun t ht => rfl)
    (fun t ht => rfl) (fun t ht => rfl)
